import Mathlib

/-!
A shallow embedding of `backend/main.py` of the vocabstream backend.

Modelling conventions:
- Python dict-based requests become structures of `Option` fields; `d.get(k, v)`
  becomes `Option.getD`.
- The external OpenAI client is a function parameter (`Provider` for text
  completion, `SynthProvider` for speech synthesis); a raised exception from
  the client is an `Except.error`.  Handlers additionally return the list of
  calls they made to the provider (system prompt, user message, max tokens),
  so that "zero provider calls" and "the budget passed to the call" are
  observable facts about the embedding.
- Python computes `(time_remaining / 60) * 100` in IEEE-754 binary64
  arithmetic; `floatRoundND` models one binary64 rounding step exactly
  (round to nearest, ties to even, 53-bit significand, unbounded exponent
  range — faithful except for overflow/subnormal inputs far outside any
  duration), and `int()` applied to the result truncates toward zero
  (`pyBudgetRaw`).
- Python ``f"{x:.0f}"`` rounds half to even; `formatMinutes` embeds it under
  exact rational semantics (exact for the non-negative durations the data
  model allows; theorems about rendering carry a `0 ≤ d` hypothesis).
- A Python `IndexError` raised by `list[i]` is `Except.error` carrying the
  CPython message `"list index out of range"`.
-/

namespace VocabStream

/-- The `ComponentTiming` pydantic model of `main.py`. -/
structure ComponentTiming where
  component : String
  startSeconds : Int
  endSeconds : Int
  durationSeconds : Int
  deriving DecidableEq, Repr

/-- `⌊log₂ n⌋` by fuelled halving (0 at 0 and 1); structurally recursive so
the kernel can evaluate it, unlike `Nat.log2`. -/
def log2fuel : ℕ → ℕ → ℕ
  | 0, _ => 0
  | fuel + 1, n => if n ≤ 1 then 0 else log2fuel fuel (n / 2) + 1

/-- `⌊log₂ n⌋` for `n ≥ 1`. -/
def natLog2 (n : ℕ) : ℕ := log2fuel n n

/-- One IEEE-754 binary64 rounding step on the positive rational `n / d`
(`n, d ≥ 1`): the nearest value with a 53-bit significand, ties to even, is
`m * 2 ^ (k - 52)` for the returned pair `(m, k)` with `2^52 ≤ m ≤ 2^53`.
The exponent range is unbounded, so overflow and subnormals are not
modelled; both lie far outside the magnitudes reached here.  `k` is
`⌊log₂ (n / d)⌋`, read off the binary logarithm of the scaled integer
quotient, and `m` rounds the exact significand `(n / d) * 2 ^ (52 - k)`. -/
def floatRoundND (n d : ℕ) : ℕ × ℤ :=
  let p : ℕ := natLog2 d + 1
  let k : ℤ := (natLog2 (n * 2 ^ p / d) : ℤ) - (p : ℤ)
  let N : ℕ := if 52 ≤ k then n else n * 2 ^ (52 - k).toNat
  let D : ℕ := if 52 ≤ k then d * 2 ^ (k - 52).toNat else d
  let m : ℕ :=
    if 2 * (N % D) < D then N / D
    else if D < 2 * (N % D) then N / D + 1
    else if N / D % 2 = 0 then N / D else N / D + 1
  (m, k)

/-- Python `int((t / 60) * 100)` computed as CPython does: `t / 60` is the
correctly rounded binary64 quotient, the product with 100 is again correctly
rounded, and `int()` truncates toward zero.  Signs factor out of both
roundings (ties-to-even is symmetric), so the two magnitudes round through
`floatRoundND`. -/
def pyBudgetRaw (t : Int) : Int :=
  if t = 0 then 0
  else
    let q1 := floatRoundND t.natAbs 60
    let n2 : ℕ := if 52 ≤ q1.2 then q1.1 * 100 * 2 ^ (q1.2 - 52).toNat else q1.1 * 100
    let d2 : ℕ := if 52 ≤ q1.2 then 1 else 2 ^ (52 - q1.2).toNat
    let q2 := floatRoundND n2 d2
    let mag : ℕ := if 52 ≤ q2.2 then q2.1 * 2 ^ (q2.2 - 52).toNat else q2.1 / 2 ^ (52 - q2.2).toNat
    if t < 0 then -(mag : Int) else (mag : Int)

/-- The max-token computation inlined in `handle_lesson_chat`:
`max_tokens = min(int((time_remaining / 60) * 100), 500)` followed by
`max_tokens = max(max_tokens, 150)`, the inner expression evaluated in
binary64 arithmetic. -/
def computeMaxTokens (time_remaining : Int) : Int :=
  max (min (pyBudgetRaw time_remaining) 500) 150

/-- The spec-side formula, written from the spec's words:
`clamp( floor(remainingSeconds / 60 * 100), lower=150, upper=500 )`. -/
def computeMaxTokensSpec (remainingSeconds : Int) : Int :=
  max 150 (min 500 (Int.fdiv (remainingSeconds * 100) 60))

/-- Python ``f"{d / 60:.0f}"`` for an integer number of seconds `d`:
`d / 60` rounded half to even, under exact rational semantics. -/
def formatMinutes (d : Int) : Int :=
  let q := d / 60
  let r := d % 60
  if r < 30 then q else if 30 < r then q + 1 else if q % 2 = 0 then q else q + 1

/-- The `remaining_time` block of `build_lesson_system_prompt`: empty when no
timing dict is present, otherwise the rendered sentence. -/
def remaining_time_str (component_timing : Option ComponentTiming) : String :=
  match component_timing with
  | none => ""
  | some t =>
      "⏱️ You have approximately " ++ toString (formatMinutes t.durationSeconds) ++
      " minutes for this section."

/-- The `component_guidance` if/elif chain of `build_lesson_system_prompt`.
A `vocab_category` of `none` or `some ""` is falsy in Python, so it
contributes nothing to the vocabulary block. -/
def component_guidance (current_component : String) (level : String)
    (vocab_category : Option String) : String :=
  if current_component = "Vocab Practice" then
    "Focus on vocabulary practice" ++
      (match vocab_category with
       | some c => if c = "" then "" else " from " ++ c
       | none => "") ++
      ". \n- Present new vocabulary in context\n- Include example sentences\n- Ask the user to use the words in sentences\n- Provide pronunciation guidance"
  else if current_component = "Reading Comprehension" then
    "Focus on reading comprehension:\n- Provide a short reading passage (appropriate for the remaining time)\n- Ask comprehension questions\n- Explain difficult vocabulary\n- Encourage the user to summarize the passage"
  else if current_component = "Speaking Practice" then
    "Focus on speaking practice:\n- Generate conversation prompts or discussion topics\n- Ask detailed questions that require extended responses\n- Provide feedback on pronunciation and fluency\n- Encourage more natural, longer answers"
  else if current_component = "Pronunciation Practice" then
    "Focus on pronunciation:\n- Provide words and phrases to practice\n- Explain pronunciation rules\n- Ask the user to practice and provide feedback\n- Use phonetic explanations"
  else if current_component = "Grammar" then
    "Focus on grammar practice:\n- Explain grammar rules clearly\n- Provide examples and exercises\n- Ask the user to create sentences using the grammar point\n- Correct errors constructively"
  else
    "Focus on " ++ current_component ++
      ":\n- Tailor activities to this specific component\n- Maintain engagement and clarity\n- Adapt difficulty to level " ++ level

/-- `build_casual_system_prompt` of `main.py`. -/
def build_casual_system_prompt (level : String) (topics : List String) : String :=
  let topics_str := String.intercalate ", " topics
  "You are a friendly and engaging English conversation partner. \n\nYour role:\n- Have natural, enjoyable conversations in English\n- Help the user practice English at level " ++
    level ++
    " (CEFR scale)\n- Focus on topics: " ++
    topics_str ++
    "\n- Ask follow-up questions to keep the conversation flowing\n- Gently correct grammar mistakes naturally within conversation\n- Use vocabulary and structures appropriate for level " ++
    level ++
    "\n- Encourage the user to share more and express themselves\n\nConversation style:\n- Warm and encouraging\n- Natural and colloquial\n- Ask open-ended questions\n- Show genuine interest in the user\x27s thoughts and experiences\n- Adapt complexity based on their level\n\nRemember to keep conversations dynamic and interesting!"

/-- `build_lesson_system_prompt` of `main.py`.  An empty `tests` or `skills`
list is falsy in Python, hence the `"General English"` / `"All skills"`
fallbacks. -/
def build_lesson_system_prompt (level : String) (topics : List String)
    (tests : List String) (skills : List String) (current_component : String)
    (component_timing : Option ComponentTiming) (vocab_category : Option String) :
    String :=
  let topics_str := String.intercalate ", " topics
  let tests_str := if tests = [] then "General English" else String.intercalate ", " tests
  let skills_str := if skills = [] then "All skills" else String.intercalate ", " skills
  let remaining_time := remaining_time_str component_timing
  let guidance := component_guidance current_component level vocab_category
  "You are a professional English tutor preparing the student for " ++
    tests_str ++
    " exams.\n\nSTUDENT PROFILE:\n- English Level: " ++
    level ++
    " (CEFR scale)\n- Target Skills: " ++
    skills_str ++
    "\n- Topics of Interest: " ++
    topics_str ++
    "\n- Exam Focus: " ++
    tests_str ++
    "\n\nCURRENT LESSON COMPONENT: " ++
    current_component ++
    "\n" ++
    remaining_time ++
    "\n\nCOMPONENT-SPECIFIC GUIDANCE:\n" ++
    guidance ++
    "\n\nLESSON DELIVERY PRINCIPLES:\n1. Adapt all content to level " ++
    level ++
    ":\n   - A1-A2: Simple sentences, frequent repetition, basic vocabulary\n   - B1-B2: More complex structures, varied vocabulary, nuanced explanations\n   - C1-C2: Advanced concepts, sophisticated vocabulary, subtle nuances\n\n2. Time-Aware Teaching:\n   - Respect the time allocation for this component\n   - Provide value even if time is limited\n   - Prepare to wrap up gracefully when component time ends\n   - Make efficient use of remaining time\n\n3. Skills Integration:\n   - Prioritize the selected skills: " ++
    skills_str ++
    "\n   - For Reading: provide appropriate length materials\n   - For Listening: use natural speech patterns\n   - For Writing: focus on structure and accuracy\n   - For Speaking: encourage extended responses\n\n4. Engagement:\n   - Ask follow-up questions to deepen learning\n   - Provide constructive feedback\n   - Maintain motivation and enthusiasm\n   - Celebrate progress\n\n5. Context Awareness:\n   - Keep track of student responses\n   - Build on previous points in the lesson\n   - Make connections to exam requirements if relevant\n   - Adapt explanations based on student understanding\n\nRESPONSE FORMAT:\n- Keep responses focused and purposeful\n- Structure complex content clearly\n- Use formatting (bold, bullet points) when helpful\n- Provide explanations before asking questions when teaching new content"

/-- Python `l[i]` on a list, including negative indexing; raising `IndexError`
is modelled as `Except.error "list index out of range"` (CPython's message). -/
def pyListGet {α : Type} (l : List α) (i : Int) : Except String α :=
  let j := if i < 0 then (l.length : Int) + i else i
  if h : 0 ≤ j ∧ j.toNat < l.length then .ok (l.get ⟨j.toNat, h.2⟩)
  else .error "list index out of range"

/-- `get_component_info` of `main.py`: returns `component_timing[idx]` when
`idx < len(component_timing)` and `None` otherwise.  The indexing expression
itself can still raise for a sufficiently negative `idx`. -/
def get_component_info (component_timing : List ComponentTiming)
    (current_component_idx : Int) : Except String (Option ComponentTiming) :=
  if current_component_idx < (component_timing.length : Int) then
    (pyListGet component_timing current_component_idx).map some
  else
    .ok none

/-- The raw JSON body sent to `POST /api/chat`, one `Option` field per key the
handlers read. -/
structure ChatReq where
  message : Option String
  level : Option String
  topics : Option (List String)
  tests : Option (List String)
  skills : Option (List String)
  mode : Option String
  currentComponent : Option Int
  currentComponentName : Option String
  componentTiming : Option (List ComponentTiming)
  timeElapsedSeconds : Option Int
  vocabCategory : Option String
  deriving DecidableEq

/-- The JSON envelope a chat handler returns; absent keys are `none`. -/
structure ChatResp where
  reply : Option String
  error : Option String
  mode : Option String
  currentComponent : Option String
  timeRemaining : Option Int
  deriving DecidableEq, Repr

/-- The external text-generation call: system prompt, user message and token
budget in; the reply text, or the raised fault, out. -/
abbrev Provider := String → String → Int → Except String String

/-- One recorded call to the text provider: (system prompt, message, max tokens). -/
abbrev ProviderCall := String × String × Int

/-- `handle_casual_chat` of `main.py`; the second component records the
provider calls made. -/
def handle_casual_chat (req : ChatReq) (provider : Provider) :
    ChatResp × List ProviderCall :=
  let message := req.message.getD ""
  let level := req.level.getD "A1"
  let topics := req.topics.getD ["General"]
  let system_prompt := build_casual_system_prompt level topics
  match provider system_prompt message 500 with
  | .ok reply => (⟨some reply, none, some "casual", none, none⟩,
      [(system_prompt, message, 500)])
  | .error e => (⟨none, some e, some "casual", none, none⟩,
      [(system_prompt, message, 500)])

/-- The `time_remaining` expression of `handle_lesson_chat`:
`current_timing.get('durationSeconds', 300) if current_timing else 300`. -/
def resolvedDuration (timing : Option ComponentTiming) : Int :=
  match timing with
  | some t => t.durationSeconds
  | none => 300

/-- `handle_lesson_chat` of `main.py`.  An `IndexError` escaping
`get_component_info` is caught by the handler's `except` and shaped into
`{"error": str(e), "mode": "lesson"}` with no provider call made. -/
def handle_lesson_chat (req : ChatReq) (provider : Provider) :
    ChatResp × List ProviderCall :=
  let message := req.message.getD ""
  let level := req.level.getD "A1"
  let topics := req.topics.getD ["General"]
  let tests := req.tests.getD []
  let skills := req.skills.getD ["Reading", "Listening", "Writing", "Speaking"]
  let current_component := req.currentComponentName.getD "General"
  let component_timing_list := req.componentTiming.getD []
  let current_component_idx := req.currentComponent.getD 0
  let vocab_category := req.vocabCategory
  match get_component_info component_timing_list current_component_idx with
  | .error e => (⟨none, some e, some "lesson", none, none⟩, [])
  | .ok current_timing =>
    let system_prompt := build_lesson_system_prompt level topics tests skills
      current_component current_timing vocab_category
    let time_remaining : Int := resolvedDuration current_timing
    let max_tokens := computeMaxTokens time_remaining
    match provider system_prompt message max_tokens with
    | .ok reply =>
        (⟨some reply, none, some "lesson", some current_component,
          match current_timing with
          | some _ => some time_remaining
          | none => none⟩,
         [(system_prompt, message, max_tokens)])
    | .error e => (⟨none, some e, some "lesson", none, none⟩,
        [(system_prompt, message, max_tokens)])

/-- The `POST /api/chat` handler `chat` of `main.py`: dispatch on
`req.get("mode", "casual")`. -/
def chat (req : ChatReq) (provider : Provider) : ChatResp × List ProviderCall :=
  let mode := req.mode.getD "casual"
  if mode = "casual" then handle_casual_chat req provider
  else if mode = "lesson" then handle_lesson_chat req provider
  else (⟨none, some "Unknown mode. Use \x27casual\x27 or \x27lesson\x27.", none, none, none⟩, [])

/-- A Python attribute value probed by the voice endpoint: raw bytes, a
file-like object whose `read()` yields bytes, or anything else. -/
inductive AttrVal where
  | bytes (b : List Nat)
  | fileLike (b : List Nat)
  | other
  deriving DecidableEq

/-- The value returned by `client.audio.speech.create`: either directly a
bytes object, or an object with the five probed attributes (`audio`, `data`,
`content`, `raw`, `raw_audio`, each possibly missing) and a `str()` form. -/
inductive SynthResp where
  | direct (b : List Nat)
  | obj (audio dat content raw rawAudio : Option AttrVal) (reprStr : String)
  deriving DecidableEq

/-- `str(resp)` for a synthesis response object. -/
def synthRepr : SynthResp → String
  | .direct _ => ""
  | .obj _ _ _ _ _ r => r

/-- One step of the attribute probe in `voice`: a bytes attribute or a
file-like attribute yields bytes and breaks the loop; a missing attribute or
one of another shape falls through to the next name. -/
def tryAttr : Option AttrVal → Option (List Nat)
  | some (.bytes b) => some b
  | some (.fileLike b) => some b
  | _ => none

/-- The bytes-extraction loop of the `voice` endpoint, probing `audio`,
`data`, `content`, `raw`, `raw_audio` in order. -/
def extract_audio_bytes : SynthResp → Option (List Nat)
  | .direct b => some b
  | .obj a d c r ra _ =>
      (((tryAttr a <|> tryAttr d) <|> tryAttr c) <|> tryAttr r) <|> tryAttr ra

/-- The external speech-synthesis call: (voice, text) in; a response object,
or the raised fault, out. -/
abbrev SynthProvider := String → String → Except String SynthResp

/-- The raw JSON body sent to `POST /api/voice`. -/
structure VoiceReq where
  text : Option String
  voice : Option String
  deriving DecidableEq

/-- What the `voice` endpoint sends back: a streamed binary body with a media
type, or a JSON error object (`error`, optional `details`, optional `raw`)
with an HTTP status code. -/
inductive VoiceResponse where
  | binary (body : List Nat) (mediaType : String)
  | jsonError (error : String) (details : Option String) (raw : Option String) (status : Nat)
  deriving DecidableEq

/-- The `POST /api/voice` handler of `main.py`; the second component records
the (voice, text) calls made to the synthesis provider. -/
def voice (req : VoiceReq) (synth : SynthProvider) :
    VoiceResponse × List (String × String) :=
  let text := req.text.getD ""
  let voiceName := req.voice.getD "alloy"
  if text = "" then (.jsonError "No text provided" none none 400, [])
  else
    match synth voiceName text with
    | .error e => (.jsonError "OpenAI TTS error" (some e) none 500, [(voiceName, text)])
    | .ok resp =>
      match extract_audio_bytes resp with
      | some b => (.binary b "audio/mpeg", [(voiceName, text)])
      | none =>
          (.jsonError "Could not extract audio bytes from OpenAI response" none
            (some (synthRepr resp)) 500, [(voiceName, text)])

set_option maxRecDepth 10000

/-- Helper: an infix of `s` is an infix of `t ++ s`. -/
theorem infix_append_left {α : Type} (t : List α) {m s : List α}
    (h : m <:+: s) : m <:+: t ++ s := by
  obtain ⟨u, v, huv⟩ := h
  exact ⟨t ++ u, v, by rw [← huv]; simp [List.append_assoc]⟩

/-- Helper: an infix of `s` is an infix of `s ++ t`. -/
theorem infix_append_right {α : Type} (t : List α) {m s : List α}
    (h : m <:+: s) : m <:+: s ++ t := by
  obtain ⟨u, v, huv⟩ := h
  exact ⟨u, v ++ t, by rw [← huv]; simp [List.append_assoc]⟩

/-- Helper: the single provider call `handle_casual_chat` always makes. -/
theorem handle_casual_chat_calls (req : ChatReq) (p : Provider) :
    (handle_casual_chat req p).2 =
      [(build_casual_system_prompt (req.level.getD "A1") (req.topics.getD ["General"]),
        req.message.getD "", 500)] := by
  unfold handle_casual_chat
  dsimp only
  cases p (build_casual_system_prompt (req.level.getD "A1") (req.topics.getD ["General"]))
      (req.message.getD "") 500 <;> rfl

/-- Helper: the single provider call `handle_lesson_chat` makes when the
timing lookup does not fault. -/
theorem handle_lesson_chat_calls (req : ChatReq) (p : Provider)
    (timing : Option ComponentTiming)
    (h : get_component_info (req.componentTiming.getD [])
      (req.currentComponent.getD 0) = .ok timing) :
    (handle_lesson_chat req p).2 =
      [(build_lesson_system_prompt (req.level.getD "A1") (req.topics.getD ["General"])
          (req.tests.getD []) (req.skills.getD ["Reading", "Listening", "Writing", "Speaking"])
          (req.currentComponentName.getD "General") timing req.vocabCategory,
        req.message.getD "",
        computeMaxTokens (resolvedDuration timing))] := by
  unfold handle_lesson_chat
  dsimp only
  split
  · rename_i e heq
    rw [heq] at h
    cases h
  · rename_i ct heq
    rw [heq] at h
    injection h with h3
    subst h3
    split <;> rfl

/-- Concrete fixture: the Grammar timing of the spec's end-to-end scenario. -/
def cTimingGrammar : ComponentTiming := ⟨"Grammar", 0, 300, 300⟩

/-- Concrete fixture: the lesson request of the spec's end-to-end scenario. -/
def reqLesson1 : ChatReq :=
  ⟨some "Hi", some "B1", some ["Travel"], none, none, some "lesson", some 0,
   some "Grammar", some [cTimingGrammar], none, none⟩

/-- Concrete fixture: a provider that always succeeds. -/
def okProvider : Provider := fun _ _ _ => .ok "reply"

/-- Concrete fixture: a component timing of 123 seconds. -/
def cTiming123 : ComponentTiming := ⟨"Grammar", 0, 123, 123⟩

/-- Concrete fixture: a lesson request whose resolved duration is 123 s. -/
def reqLesson123 : ChatReq :=
  ⟨some "Hi", some "B1", some ["Travel"], none, none, some "lesson", some 0,
   some "Grammar", some [cTiming123], none, none⟩

/-- C1 counterexample: at a lesson request with `durationSeconds = 123` the
program passes the budget 204 to the provider — binary64 arithmetic gives
`int(2.05 * 100) = 204` — while `clamp(floor(123 / 60 * 100), 150, 500)`
is 205, refuting the claimed clamp-floor formula. -/
theorem c1_counterexample :
    ((handle_lesson_chat reqLesson123 okProvider).2.map fun c => c.2.2) = [(204 : Int)] ∧
    computeMaxTokensSpec 123 = 205 ∧
    ((handle_lesson_chat reqLesson123 okProvider).2.map fun c => c.2.2) ≠
      [computeMaxTokensSpec 123] := by
  refine ⟨by decide, by decide, by decide⟩

/-- C1 (amended): for every lesson-mode request, the token budget passed to
the text-generation call is `clamp(int(fl(fl(remainingSeconds / 60) * 100)),
lower=150, upper=500)` with `fl` one binary64 rounding and `int` truncation
toward zero, where `remainingSeconds` is the resolved component's
`durationSeconds` and defaults to 300 when no timing is resolved.  The four
sample values `computeMaxTokens 300 = 500`, `90 ↦ 150`, `600 ↦ 500`,
`0 ↦ 150` hold as the spec states (the exact clamp-floor formula gives the
same four values), but the two formulas disagree inside the clamp range,
e.g. 204 versus 205 at 123 seconds. -/
theorem c1_token_budget :
    (∀ (req : ChatReq) (p : Provider) (timing : Option ComponentTiming),
      get_component_info (req.componentTiming.getD []) (req.currentComponent.getD 0) =
        .ok timing →
      ((handle_lesson_chat req p).2.map fun c => c.2.2) =
        [computeMaxTokens (resolvedDuration timing)]) ∧
    computeMaxTokens 300 = 500 ∧ computeMaxTokens 90 = 150 ∧
    computeMaxTokens 600 = 500 ∧ computeMaxTokens 0 = 150 ∧
    computeMaxTokensSpec 300 = 500 ∧ computeMaxTokensSpec 90 = 150 ∧
    computeMaxTokensSpec 600 = 500 ∧ computeMaxTokensSpec 0 = 150 ∧
    computeMaxTokens 123 = 204 ∧ computeMaxTokensSpec 123 = 205 := by
  refine ⟨?_, by decide, by decide, by decide, by decide, by decide, by decide,
    by decide, by decide, by decide, by decide⟩
  intro req p timing h
  rw [handle_lesson_chat_calls req p timing h]
  rfl

/-- Witness for the amended C1 at the spec's end-to-end scenario. -/
theorem c1_witness :
    get_component_info (reqLesson1.componentTiming.getD [])
        (reqLesson1.currentComponent.getD 0) = .ok (some cTimingGrammar) ∧
    ((handle_lesson_chat reqLesson1 okProvider).2.map fun c => c.2.2) =
      [computeMaxTokens 300] :=
  ⟨rfl,
   c1_token_budget.1 reqLesson1 okProvider (some cTimingGrammar) rfl⟩

/-- Concrete fixture: a request whose mode is neither casual nor lesson. -/
def reqBanana : ChatReq :=
  ⟨none, none, none, none, none, some "banana", none, none, none, none, none⟩

/-- Concrete fixture: a request with every field absent. -/
def reqEmpty : ChatReq :=
  ⟨none, none, none, none, none, none, none, none, none, none, none⟩

/-- C2: a present mode outside {"casual", "lesson"} makes the chat handler
return exactly the unknown-mode error envelope with zero provider calls and
no exception; an absent mode is treated as "casual". -/
theorem c2_unknown_mode :
    (∀ (req : ChatReq) (p : Provider) (m : String),
      req.mode = some m → m ≠ "casual" → m ≠ "lesson" →
      chat req p =
        (⟨none, some "Unknown mode. Use \x27casual\x27 or \x27lesson\x27.",
          none, none, none⟩, [])) ∧
    (∀ (req : ChatReq) (p : Provider), req.mode = none →
      chat req p = handle_casual_chat req p) := by
  constructor
  · intro req p m hm h1 h2
    simp [chat, hm, h1, h2]
  · intro req p hm
    simp [chat, hm]

/-- Witness for C2 with the unknown mode "banana" and an absent mode. -/
theorem c2_witness :
    reqBanana.mode = some "banana" ∧
    chat reqBanana okProvider =
      (⟨none, some "Unknown mode. Use \x27casual\x27 or \x27lesson\x27.",
        none, none, none⟩, []) ∧
    reqEmpty.mode = none ∧
    chat reqEmpty okProvider = handle_casual_chat reqEmpty okProvider :=
  ⟨rfl,
   c2_unknown_mode.1 reqBanana okProvider "banana" rfl (by decide) (by decide),
   rfl,
   c2_unknown_mode.2 reqEmpty okProvider rfl⟩

/-- Concrete fixture: a casual request whose topics field is present and empty. -/
def reqTopicsEmpty : ChatReq :=
  ⟨some "Hi", none, some [], none, none, some "casual", none, none, none, none, none⟩

/-- C3 counterexample: with `topics` present but empty, the system prompt is
built from `[]`, not from `["General"]`, refuting the claim that an empty
topics list is normalized to `["General"]`. -/
theorem c3_counterexample :
    reqTopicsEmpty.topics = some [] ∧
    ((handle_casual_chat reqTopicsEmpty okProvider).2.map fun c => c.1) =
      [build_casual_system_prompt "A1" []] ∧
    build_casual_system_prompt "A1" [] ≠ build_casual_system_prompt "A1" ["General"] := by
  refine ⟨rfl, rfl, by decide⟩

/-- C3 amended: the topics list defaults to `["General"]` exactly when the
field is absent; a present topics list (the empty list included) is used
unchanged in the system prompt, for both casual and lesson mode. -/
theorem c3_amended :
    (∀ (req : ChatReq) (p : Provider), req.topics = none →
      ((handle_casual_chat req p).2.map fun c => c.1) =
        [build_casual_system_prompt (req.level.getD "A1") ["General"]]) ∧
    (∀ (req : ChatReq) (p : Provider) (ts : List String), req.topics = some ts →
      ((handle_casual_chat req p).2.map fun c => c.1) =
        [build_casual_system_prompt (req.level.getD "A1") ts]) ∧
    (∀ (req : ChatReq) (p : Provider) (timing : Option ComponentTiming),
      req.topics = none →
      get_component_info (req.componentTiming.getD []) (req.currentComponent.getD 0) =
        .ok timing →
      ((handle_lesson_chat req p).2.map fun c => c.1) =
        [build_lesson_system_prompt (req.level.getD "A1") ["General"]
          (req.tests.getD []) (req.skills.getD ["Reading", "Listening", "Writing", "Speaking"])
          (req.currentComponentName.getD "General") timing req.vocabCategory]) ∧
    (∀ (req : ChatReq) (p : Provider) (ts : List String) (timing : Option ComponentTiming),
      req.topics = some ts →
      get_component_info (req.componentTiming.getD []) (req.currentComponent.getD 0) =
        .ok timing →
      ((handle_lesson_chat req p).2.map fun c => c.1) =
        [build_lesson_system_prompt (req.level.getD "A1") ts
          (req.tests.getD []) (req.skills.getD ["Reading", "Listening", "Writing", "Speaking"])
          (req.currentComponentName.getD "General") timing req.vocabCategory]) := by
  refine ⟨?_, ?_, ?_, ?_⟩
  · intro req p ht
    rw [handle_casual_chat_calls req p, ht]
    rfl
  · intro req p ts ht
    rw [handle_casual_chat_calls req p, ht]
    rfl
  · intro req p timing ht h
    rw [handle_lesson_chat_calls req p timing h, ht]
    rfl
  · intro req p ts timing ht h
    rw [handle_lesson_chat_calls req p timing h, ht]
    rfl

/-- Witness for the amended C3 at concrete requests. -/
theorem c3_amended_witness :
    reqEmpty.topics = none ∧
    ((handle_casual_chat reqEmpty okProvider).2.map fun c => c.1) =
      [build_casual_system_prompt "A1" ["General"]] ∧
    reqTopicsEmpty.topics = some [] ∧
    ((handle_casual_chat reqTopicsEmpty okProvider).2.map fun c => c.1) =
      [build_casual_system_prompt "A1" []] ∧
    ((handle_lesson_chat reqLesson1 okProvider).2.map fun c => c.1) =
      [build_lesson_system_prompt "B1" ["Travel"] []
        ["Reading", "Listening", "Writing", "Speaking"] "Grammar"
        (some cTimingGrammar) none] :=
  ⟨rfl,
   c3_amended.1 reqEmpty okProvider rfl,
   rfl,
   c3_amended.2.1 reqTopicsEmpty okProvider [] rfl,
   c3_amended.2.2.2 reqLesson1 okProvider ["Travel"] (some cTimingGrammar) rfl rfl⟩

/-- The five component names the lesson prompt's if/elif chain recognizes. -/
def knownComponents : List String :=
  ["Vocab Practice", "Reading Comprehension", "Speaking Practice",
   "Pronunciation Practice", "Grammar"]

/-- C4: the guidance block of the lesson prompt is chosen by exact match of
`currentComponentName` against the five known names: the built prompt always
embeds the selected guidance block; `"Vocab Practice"` selects the block
containing "pronunciation guidance"; the other four names select their fixed
blocks; every other name gets the generic fallback block, which mentions the
component's own name and the level. -/
theorem c4_guidance_dispatch :
    (∀ (level : String) (topics tests skills : List String) (cc : String)
        (timing : Option ComponentTiming) (vc : Option String),
      (component_guidance cc level vc).data <:+:
        (build_lesson_system_prompt level topics tests skills cc timing vc).data) ∧
    (∀ (level : String) (vc : Option String),
      "pronunciation guidance".data <:+:
        (component_guidance "Vocab Practice" level vc).data) ∧
    (∀ (level : String) (vc : Option String),
      component_guidance "Reading Comprehension" level vc =
        "Focus on reading comprehension:\n- Provide a short reading passage (appropriate for the remaining time)\n- Ask comprehension questions\n- Explain difficult vocabulary\n- Encourage the user to summarize the passage") ∧
    (∀ (level : String) (vc : Option String),
      component_guidance "Speaking Practice" level vc =
        "Focus on speaking practice:\n- Generate conversation prompts or discussion topics\n- Ask detailed questions that require extended responses\n- Provide feedback on pronunciation and fluency\n- Encourage more natural, longer answers") ∧
    (∀ (level : String) (vc : Option String),
      component_guidance "Pronunciation Practice" level vc =
        "Focus on pronunciation:\n- Provide words and phrases to practice\n- Explain pronunciation rules\n- Ask the user to practice and provide feedback\n- Use phonetic explanations") ∧
    (∀ (level : String) (vc : Option String),
      component_guidance "Grammar" level vc =
        "Focus on grammar practice:\n- Explain grammar rules clearly\n- Provide examples and exercises\n- Ask the user to create sentences using the grammar point\n- Correct errors constructively") ∧
    (∀ (name level : String) (vc : Option String), name ∉ knownComponents →
      component_guidance name level vc =
        "Focus on " ++ name ++
          ":\n- Tailor activities to this specific component\n- Maintain engagement and clarity\n- Adapt difficulty to level " ++
          level ∧
      name.data <:+: (component_guidance name level vc).data ∧
      level.data <:+: (component_guidance name level vc).data) := by
  refine ⟨?_, ?_, fun _ _ => rfl, fun _ _ => rfl, fun _ _ => rfl, fun _ _ => rfl, ?_⟩
  · intro level topics tests skills cc timing vc
    unfold build_lesson_system_prompt
    dsimp only
    simp only [String.data_append]
    apply infix_append_right
    apply infix_append_right
    apply infix_append_right
    apply infix_append_right
    apply infix_append_right
    apply infix_append_left
    exact List.infix_rfl
  · intro level vc
    unfold component_guidance
    rw [if_pos rfl]
    simp only [String.data_append]
    apply infix_append_left
    decide
  · intro name level vc h
    simp only [knownComponents, List.mem_cons, List.not_mem_nil, or_false,
      not_or] at h
    obtain ⟨h1, h2, h3, h4, h5⟩ := h
    have e : component_guidance name level vc =
        "Focus on " ++ name ++
          ":\n- Tailor activities to this specific component\n- Maintain engagement and clarity\n- Adapt difficulty to level " ++
          level := by
      simp [component_guidance, h1, h2, h3, h4, h5]
    refine ⟨e, ?_, ?_⟩
    · rw [e]
      simp only [String.data_append]
      apply infix_append_right
      apply infix_append_right
      apply infix_append_left
      exact List.infix_rfl
    · rw [e]
      simp only [String.data_append]
      apply infix_append_left
      exact List.infix_rfl

/-- Witness for C4: the fallback at the default name "General". -/
theorem c4_witness :
    "General" ∉ knownComponents ∧
    component_guidance "General" "B2" none =
      "Focus on " ++ "General" ++
        ":\n- Tailor activities to this specific component\n- Maintain engagement and clarity\n- Adapt difficulty to level " ++
        "B2" :=
  ⟨by decide, (c4_guidance_dispatch.2.2.2.2.2.2 "General" "B2" none (by decide)).1⟩

/-- C5: the remaining-time sentence is rendered exactly when timing is
present; it shows `durationSeconds / 60` rounded to the nearest whole minute
(the rendered minute count `m` always satisfies `|60·m − durationSeconds| ≤
30`); with no timing it is the empty string, and 300 seconds render as
"approximately 5 minutes". -/
theorem c5_remaining_time :
    (∀ t : ComponentTiming, 0 ≤ t.durationSeconds →
      remaining_time_str (some t) =
        "⏱️ You have approximately " ++ toString (formatMinutes t.durationSeconds) ++
          " minutes for this section." ∧
      60 * formatMinutes t.durationSeconds - t.durationSeconds ≤ 30 ∧
      t.durationSeconds - 60 * formatMinutes t.durationSeconds ≤ 30) ∧
    remaining_time_str none = "" ∧
    remaining_time_str (some cTimingGrammar) =
      "⏱️ You have approximately 5 minutes for this section." := by
  refine ⟨?_, rfl, rfl⟩
  intro t ht
  refine ⟨rfl, ?_, ?_⟩ <;>
  · unfold formatMinutes
    dsimp only
    split_ifs <;> omega

/-- Witness for C5 at the 300-second Grammar timing. -/
theorem c5_witness :
    (0:Int) ≤ cTimingGrammar.durationSeconds ∧
    remaining_time_str (some cTimingGrammar) =
      "⏱️ You have approximately " ++ toString (formatMinutes cTimingGrammar.durationSeconds) ++
        " minutes for this section." ∧
    60 * formatMinutes cTimingGrammar.durationSeconds - cTimingGrammar.durationSeconds ≤ 30 ∧
    cTimingGrammar.durationSeconds - 60 * formatMinutes cTimingGrammar.durationSeconds ≤ 30 :=
  ⟨by decide, c5_remaining_time.1 cTimingGrammar (by decide)⟩

/-- C6: for a non-negative index, the timing lookup returns the element at
the index when it is in bounds and `None` otherwise, never faulting; in
particular on `[]` at 0, on a two-element list at 1, and on a one-element
list at 5. -/
theorem c6_lookup :
    (∀ (l : List ComponentTiming) (i : Int), 0 ≤ i →
      get_component_info l i =
        if h : i.toNat < l.length then .ok (some (l.get ⟨i.toNat, h⟩))
        else .ok none) ∧
    get_component_info [] 0 = .ok none ∧
    (∀ t0 t1 : ComponentTiming, get_component_info [t0, t1] 1 = .ok (some t1)) ∧
    (∀ t0 : ComponentTiming, get_component_info [t0] 5 = .ok none) := by
  refine ⟨?_, rfl, fun t0 t1 => rfl, fun t0 => rfl⟩
  intro l i hi
  unfold get_component_info pyListGet
  dsimp only
  have hneg : ¬ i < 0 := by omega
  simp only [if_neg hneg]
  by_cases hlt : i < (l.length : Int)
  · have h2 : i.toNat < l.length := by omega
    rw [if_pos hlt, dif_pos ⟨hi, h2⟩, dif_pos h2]
    rfl
  · have h2 : ¬ i.toNat < l.length := by omega
    rw [if_neg hlt, dif_neg h2]

/-- Witness for C6 at a concrete two-element list and index 1. -/
theorem c6_witness :
    get_component_info [cTimingGrammar, cTimingGrammar] 1 = .ok (some cTimingGrammar) :=
  c6_lookup.1 [cTimingGrammar, cTimingGrammar] 1 (by norm_num)

/-- C7: whenever the external text-generation call fails, the handler catches
the fault and answers with the `{error, mode}` envelope for its mode; no
provider fault escapes either handler. -/
theorem c7_provider_failure :
    (∀ (req : ChatReq) (e : String),
      (handle_casual_chat req (fun _ _ _ => .error e)).1 =
        ⟨none, some e, some "casual", none, none⟩) ∧
    (∀ (req : ChatReq) (e : String) (timing : Option ComponentTiming),
      get_component_info (req.componentTiming.getD [])
          (req.currentComponent.getD 0) = .ok timing →
      (handle_lesson_chat req (fun _ _ _ => .error e)).1 =
        ⟨none, some e, some "lesson", none, none⟩) ∧
    (∀ (req : ChatReq) (e : String), ∃ msg,
      (handle_lesson_chat req (fun _ _ _ => .error e)).1 =
        ⟨none, some msg, some "lesson", none, none⟩) := by
  refine ⟨fun req e => rfl, ?_, ?_⟩
  · intro req e timing h
    unfold handle_lesson_chat
    dsimp only
    split
    · rename_i e2 heq
      rw [heq] at h
      cases h
    · rfl
  · intro req e
    unfold handle_lesson_chat
    dsimp only
    cases hg : get_component_info (req.componentTiming.getD [])
        (req.currentComponent.getD 0) with
    | error msg => exact ⟨msg, rfl⟩
    | ok ct => exact ⟨e, rfl⟩

/-- Witness for C7 with the fault "boom" in both modes. -/
theorem c7_witness :
    (handle_casual_chat reqEmpty (fun _ _ _ => .error "boom")).1 =
      ⟨none, some "boom", some "casual", none, none⟩ ∧
    (handle_lesson_chat reqLesson1 (fun _ _ _ => .error "boom")).1 =
      ⟨none, some "boom", some "lesson", none, none⟩ :=
  ⟨c7_provider_failure.1 reqEmpty "boom",
   c7_provider_failure.2.1 reqLesson1 "boom" (some cTimingGrammar) rfl⟩

/-- C8: the voice endpoint answers a missing or empty text with a 400 JSON
error and zero provider calls; a provider bytes payload is streamed back
verbatim as audio/mpeg; a provider fault or an unextractable response yields
a 500 JSON error instead of a binary body. -/
theorem c8_voice :
    (∀ (req : VoiceReq) (synth : SynthProvider),
      req.text = none ∨ req.text = some "" →
      voice req synth = (.jsonError "No text provided" none none 400, [])) ∧
    (∀ (req : VoiceReq) (synth : SynthProvider) (t : String) (b : List Nat),
      req.text = some t → t ≠ "" →
      synth (req.voice.getD "alloy") t = .ok (.direct b) →
      voice req synth = (.binary b "audio/mpeg", [(req.voice.getD "alloy", t)])) ∧
    (∀ (req : VoiceReq) (synth : SynthProvider) (t e : String),
      req.text = some t → t ≠ "" →
      synth (req.voice.getD "alloy") t = .error e →
      voice req synth = (.jsonError "OpenAI TTS error" (some e) none 500,
        [(req.voice.getD "alloy", t)])) ∧
    (∀ (req : VoiceReq) (synth : SynthProvider) (t : String) (r : SynthResp),
      req.text = some t → t ≠ "" →
      synth (req.voice.getD "alloy") t = .ok r →
      extract_audio_bytes r = none →
      voice req synth =
        (.jsonError "Could not extract audio bytes from OpenAI response" none
          (some (synthRepr r)) 500, [(req.voice.getD "alloy", t)])) := by
  refine ⟨?_, ?_, ?_, ?_⟩
  · intro req synth h
    rcases h with h | h <;> simp [voice, h]
  · intro req synth t b ht hne hs
    unfold voice
    dsimp only
    simp only [ht, Option.getD_some]
    rw [if_neg hne]
    split
    · rename_i e2 heq
      rw [hs] at heq
      exact Except.noConfusion heq
    · rename_i resp heq
      rw [hs] at heq
      injection heq with h3
      subst h3
      rfl
  · intro req synth t e ht hne hs
    unfold voice
    dsimp only
    simp only [ht, Option.getD_some]
    rw [if_neg hne]
    split
    · rename_i e2 heq
      rw [hs] at heq
      injection heq with h3
      subst h3
      rfl
    · rename_i resp heq
      rw [hs] at heq
      exact Except.noConfusion heq
  · intro req synth t r ht hne hs hx
    unfold voice
    dsimp only
    simp only [ht, Option.getD_some]
    rw [if_neg hne]
    split
    · rename_i e2 heq
      rw [hs] at heq
      exact Except.noConfusion heq
    · rename_i resp heq
      rw [hs] at heq
      injection heq with h3
      subst h3
      split
      · rename_i b hb
        rw [hx] at hb
        exact Option.noConfusion hb
      · rfl

/-- Concrete fixture: a voice request with text "Hello" and default voice. -/
def voiceReqHello : VoiceReq := ⟨some "Hello", none⟩

/-- Concrete fixture: a voice request with no text. -/
def voiceReqNoText : VoiceReq := ⟨none, none⟩

/-- Concrete fixture: a synthesis provider returning the bytes "RIFF". -/
def synthBytes : SynthProvider := fun _ _ => .ok (.direct [82, 73, 70, 70])

/-- Concrete fixture: a synthesis provider that always faults. -/
def synthBoom : SynthProvider := fun _ _ => .error "boom"

/-- Concrete fixture: a synthesis provider returning an object none of whose
probed attributes holds bytes. -/
def synthOpaque : SynthProvider := fun _ _ => .ok (.obj none none none none none "resp")

/-- Witness for C8 on the four concrete scenarios. -/
theorem c8_witness :
    voice voiceReqNoText synthBytes = (.jsonError "No text provided" none none 400, []) ∧
    voice voiceReqHello synthBytes =
      (.binary [82, 73, 70, 70] "audio/mpeg", [("alloy", "Hello")]) ∧
    voice voiceReqHello synthBoom =
      (.jsonError "OpenAI TTS error" (some "boom") none 500, [("alloy", "Hello")]) ∧
    voice voiceReqHello synthOpaque =
      (.jsonError "Could not extract audio bytes from OpenAI response" none
        (some "resp") 500, [("alloy", "Hello")]) :=
  ⟨c8_voice.1 voiceReqNoText synthBytes (Or.inl rfl),
   c8_voice.2.1 voiceReqHello synthBytes "Hello" [82, 73, 70, 70] rfl (by decide) rfl,
   c8_voice.2.2.1 voiceReqHello synthBoom "Hello" "boom" rfl (by decide) rfl,
   c8_voice.2.2.2 voiceReqHello synthOpaque "Hello" (.obj none none none none none "resp")
     rfl (by decide) rfl rfl⟩

/-- C9: both prompt builders are pure functions of their arguments — two
calls on identical inputs give byte-identical strings. -/
theorem c9_determinism :
    (∀ (level : String) (topics : List String),
      build_casual_system_prompt level topics = build_casual_system_prompt level topics) ∧
    (∀ (level : String) (topics tests skills : List String) (cc : String)
        (timing : Option ComponentTiming) (vc : Option String),
      build_lesson_system_prompt level topics tests skills cc timing vc =
        build_lesson_system_prompt level topics tests skills cc timing vc) :=
  ⟨fun _ _ => rfl, fun _ _ _ _ _ _ _ => rfl⟩

/-- Helper: Python negative indexing inside `get_component_info`, in-range
case: the element counted from the end is returned. -/
theorem get_component_info_neg (l : List ComponentTiming) (i : Int)
    (h1 : i < 0) (h2 : -(l.length : Int) ≤ i) :
    get_component_info l i = .ok (l.get? ((l.length : Int) + i).toNat) ∧
    (l.get? ((l.length : Int) + i).toNat).isSome = true := by
  have hlt : i < (l.length : Int) := by omega
  have hj0 : 0 ≤ (l.length : Int) + i := by omega
  have hjn : ((l.length : Int) + i).toNat < l.length := by omega
  unfold get_component_info pyListGet
  dsimp only
  rw [if_pos hlt]
  simp only [if_pos h1]
  rw [dif_pos ⟨hj0, hjn⟩]
  constructor
  · simp [Except.map, List.get?_eq_get hjn]
  · simp [List.get?_eq_getElem?, List.getElem?_eq_getElem hjn]

/-- Helper: index −1 on a non-empty list returns the last element. -/
theorem get_component_info_neg_one (l : List ComponentTiming) (h : l ≠ []) :
    get_component_info l (-1) = .ok (some (l.getLast h)) := by
  have hpos : 0 < l.length := List.length_pos.mpr h
  have h2 : -(l.length : Int) ≤ -1 := by omega
  obtain ⟨e1, _⟩ := get_component_info_neg l (-1) (by norm_num) h2
  rw [e1]
  have hidx : ((l.length : Int) + -1).toNat = l.length - 1 := by omega
  have hb : l.length - 1 < l.length := by omega
  rw [hidx, List.get?_eq_getElem?, List.getElem?_eq_getElem hb, List.getLast_eq_getElem l h]

/-- Helper: any negative index on the empty timing list raises, modelled as
the IndexError message. -/
theorem get_component_info_neg_empty (i : Int) (h : i < 0) :
    get_component_info [] i = .error "list index out of range" := by
  unfold get_component_info pyListGet
  dsimp only
  simp only [List.length_nil, Nat.cast_zero, if_pos h]
  rw [dif_neg (by omega : ¬((0:Int) ≤ 0 + i ∧ ((0:Int) + i).toNat < 0))]
  rfl

/-- Helper: the lesson handler converts the IndexError from a negative index
on an absent/empty timing list into the error envelope, with no provider
call. -/
theorem handle_lesson_chat_index_error (req : ChatReq) (p : Provider) (i : Int)
    (h1 : req.currentComponent = some i) (h2 : i < 0)
    (h3 : req.componentTiming.getD [] = []) :
    handle_lesson_chat req p =
      (⟨none, some "list index out of range", some "lesson", none, none⟩, []) := by
  unfold handle_lesson_chat
  dsimp only
  simp only [h1, h3, Option.getD_some, get_component_info_neg_empty i h2]

/-- C10: a negative `currentComponent` does not read as "absent": on a
non-empty timing list with `|i| ≤ length` the lookup returns the element
counted from the end (−1 gives the last element), while on the empty list a
negative index raises inside the lookup, which the lesson handler converts
into the `{error, mode: "lesson"}` envelope. -/
theorem c10_negative_index :
    (∀ (l : List ComponentTiming) (i : Int), i < 0 → -(l.length : Int) ≤ i →
      get_component_info l i = .ok (l.get? ((l.length : Int) + i).toNat) ∧
      (l.get? ((l.length : Int) + i).toNat).isSome = true) ∧
    (∀ (l : List ComponentTiming) (h : l ≠ []),
      get_component_info l (-1) = .ok (some (l.getLast h))) ∧
    (∀ i : Int, i < 0 → get_component_info [] i = .error "list index out of range") ∧
    (∀ (req : ChatReq) (p : Provider) (i : Int),
      req.currentComponent = some i → i < 0 → req.componentTiming.getD [] = [] →
      handle_lesson_chat req p =
        (⟨none, some "list index out of range", some "lesson", none, none⟩, [])) :=
  ⟨get_component_info_neg, get_component_info_neg_one, get_component_info_neg_empty,
   handle_lesson_chat_index_error⟩

/-- Concrete fixture: a lesson request with a negative component index and no
timing list. -/
def reqLessonNegIdx : ChatReq :=
  ⟨some "Hi", none, none, none, none, some "lesson", some (-1), none, none, none, none⟩

/-- Witness for C10 at concrete lists and a concrete lesson request. -/
theorem c10_witness :
    get_component_info [cTimingGrammar] (-1) = .ok (some cTimingGrammar) ∧
    get_component_info [] (-1) = .error "list index out of range" ∧
    handle_lesson_chat reqLessonNegIdx okProvider =
      (⟨none, some "list index out of range", some "lesson", none, none⟩, []) :=
  ⟨c10_negative_index.2.1 [cTimingGrammar] (by decide),
   c10_negative_index.2.2.1 (-1) (by norm_num),
   c10_negative_index.2.2.2 reqLessonNegIdx okProvider (-1) rfl (by norm_num) rfl⟩

end VocabStream
